import Mathlib

set_option maxRecDepth 8000

/-- A JavaScript runtime value as it reaches the tool handlers through the
loosely typed argument bag. String values carry their contents; the
remaining runtime shapes (numbers, booleans, null, other objects) are kept
as separate constructors because the validators distinguish strings from
everything else with typeof checks. -/
inductive JVal where
  | jstr (s : String)
  | jnum (n : Int)
  | jbool (b : Bool)
  | jnull
  | jobj
  deriving DecidableEq

/-- The argument map of a tool invocation: the four field names the source
reads (title, notes, taskId, status). A field that is absent from the map,
or present with the value undefined, is none. -/
structure ArgsObj where
  title : Option JVal
  notes : Option JVal
  taskId : Option JVal
  status : Option JVal
  deriving DecidableEq

/-- request.params.arguments: either an object with the four readable
fields, or a non-object value (null, undefined, a primitive), which every
validator in the source rejects up front. -/
inductive Args where
  | obj (o : ArgsObj)
  | nonObject
  deriving DecidableEq

def MAX_TITLE_LENGTH : Nat := 256

def MAX_NOTES_LENGTH : Nat := 8192

def MAX_TASK_ID_LENGTH : Nat := 256

/-- UTF-16 length contribution of one code point: JS string length counts
UTF-16 code units, so code points beyond the BMP count twice. -/
def utf16CharLen (c : Char) : Nat := if c.toNat < 65536 then 1 else 2

/-- JS string length (number of UTF-16 code units). -/
def jsLength (s : String) : Nat := (s.data.map utf16CharLen).sum

/-- Code points removed from the ends of a string by JS trim: the
WhiteSpace production (TAB, VT, FF, SP, NBSP, ZWNBSP and the Zs category)
together with the LineTerminator production (LF, CR, LS, PS). -/
def isJsWhitespace (c : Char) : Bool :=
  c.toNat == 0x9 || c.toNat == 0xA || c.toNat == 0xB || c.toNat == 0xC ||
  c.toNat == 0xD || c.toNat == 0x20 || c.toNat == 0xA0 || c.toNat == 0x1680 ||
  (decide (0x2000 ≤ c.toNat) && decide (c.toNat ≤ 0x200A)) ||
  c.toNat == 0x2028 || c.toNat == 0x2029 || c.toNat == 0x202F ||
  c.toNat == 0x205F || c.toNat == 0x3000 || c.toNat == 0xFEFF

/-- The characters matched by the sanitizer regex: ASCII control
characters x00 through x1F, and DEL (x7F). -/
def isAsciiControl (c : Char) : Bool := decide (c.toNat ≤ 0x1F) || c.toNat == 0x7F

/-- JS trim on a character list: drop whitespace from the front, then from
the back. -/
def jsTrimList (l : List Char) : List Char :=
  ((l.dropWhile isJsWhitespace).reverse.dropWhile isJsWhitespace).reverse

/-- sanitizeString from src/index.ts: first input.trim(), then a global
replace of every ASCII control character by the empty string. The trim
runs before the control characters are removed. -/
def sanitizeString (s : String) : String :=
  String.mk ((jsTrimList s.data).filter (fun c => !(isAsciiControl c)))

/-- JS truthiness of a possibly absent value, as consulted by the
conditional on args.notes and the default on args.status. A string is
truthy exactly when it is nonempty. -/
def truthy : Option JVal → Bool
  | none => false
  | some (.jstr s) => s != ""
  | some (.jnum n) => n != 0
  | some (.jbool b) => b
  | some .jnull => false
  | some .jobj => true

def msgInputMustBeString : String := "Input must be a string"

/-- sanitizeString applied to a field of the argument map: the source
function throws a plain Error when its argument is not a string, which
includes the case of an absent (undefined) field. -/
def sanitizeJs : Option JVal → Except String String
  | some (.jstr s) => Except.ok (sanitizeString s)
  | _ => Except.error msgInputMustBeString

/-- The notes expression of the create handler: sanitize the notes field
when it is truthy, otherwise pass undefined. -/
def sanitizeNotes (x : Option JVal) : Except String (Option String) :=
  if truthy x then (sanitizeJs x).map some else Except.ok none

def VALID_TASK_STATUSES : List String := ["needsAction", "completed"]

/-- isValidTaskStatus from src/index.ts. -/
def isValidTaskStatus (s : String) : Bool := VALID_TASK_STATUSES.contains s

/-- includes on VALID_TASK_STATUSES applied to an arbitrary runtime value:
only an equal string is a member. -/
def isValidTaskStatusJ : JVal → Bool
  | .jstr s => isValidTaskStatus s
  | _ => false

/-- One optional field check of isValidCreateTaskArgs: an absent field
passes; a present field must be a string whose length does not exceed the
limit. -/
def validOptStringField (maxLen : Nat) : Option JVal → Bool
  | none => true
  | some (.jstr s) => decide (jsLength s ≤ maxLen)
  | some _ => false

/-- The status check of isValidCreateTaskArgs and isValidCompleteTaskArgs:
an absent status passes; a present status must be a string in the
enumerated set. -/
def validStatusField : Option JVal → Bool
  | none => true
  | some j => isValidTaskStatusJ j

/-- isValidCreateTaskArgs from src/index.ts. Note that the title field is
only checked when present: an argument map without a title passes. -/
def isValidCreateTaskArgs : Args → Bool
  | .nonObject => false
  | .obj o =>
    validOptStringField MAX_TITLE_LENGTH o.title &&
    validOptStringField MAX_NOTES_LENGTH o.notes &&
    validOptStringField MAX_TASK_ID_LENGTH o.taskId &&
    validStatusField o.status

/-- The taskId check shared by the delete and complete validators: a
present string of length strictly between 0 and the ceiling. -/
def requiredTaskIdField : Option JVal → Bool
  | some (.jstr s) => decide (0 < jsLength s) && decide (jsLength s ≤ MAX_TASK_ID_LENGTH)
  | _ => false

/-- isValidDeleteTaskArgs from src/index.ts. -/
def isValidDeleteTaskArgs : Args → Bool
  | .nonObject => false
  | .obj o => requiredTaskIdField o.taskId

/-- isValidCompleteTaskArgs from src/index.ts. -/
def isValidCompleteTaskArgs : Args → Bool
  | .nonObject => false
  | .obj o => requiredTaskIdField o.taskId && validStatusField o.status

/-- A value thrown by a remote call: either an Error instance carrying a
message text, or any non-Error thrown value. -/
inductive ThrownValue where
  | errorInstance (text : String)
  | nonError
  deriving DecidableEq

/-- The instanceof Error test of getSafeErrorMessage. -/
def isErrorInstance : ThrownValue → Bool
  | .errorInstance _ => true
  | .nonError => false

def genericErrorMsg : String := "An error occurred while processing your request"

def unknownErrorMsg : String := "Unknown error occurred"

/-- getSafeErrorMessage from src/index.ts: a fixed message for Error
instances and a fixed message for everything else; the text carried by the
thrown value is never consulted. -/
def getSafeErrorMessage : ThrownValue → String
  | .errorInstance _ => genericErrorMsg
  | .nonError => unknownErrorMsg

/-- Outcome of the single remote API call a handler may issue: the
serialized response data on success, or the thrown value on failure. -/
inductive RemoteResult where
  | ok (text : String)
  | threw (e : ThrownValue)
  deriving DecidableEq

/-- The MCP error codes used by the source. -/
inductive ErrCode where
  | invalidRequest
  | invalidParams
  | methodNotFound
  | internalError
  deriving DecidableEq

/-- The request body transmitted by tasks.insert: sanitized title,
sanitized-or-absent notes, and the raw status field of the argument map. -/
structure InsertBody where
  title : String
  notes : Option String
  status : Option JVal
  deriving DecidableEq

/-- The remote call a handler issues against the default task list. -/
inductive RemoteCall where
  | list
  | insert (body : InsertBody)
  | delete (task : String)
  | patch (task : String) (status : JVal)
  deriving DecidableEq

/-- What a handler produces: a normal content response, a thrown McpError
with a code and message, or a thrown plain (untyped) JS Error. -/
inductive ToolOutcome where
  | content (text : String)
  | mcpError (code : ErrCode) (msg : String)
  | jsThrow (msg : String)
  deriving DecidableEq

def createInvalidParamsMsg : String :=
  "Invalid arguments for creating a task. 'title' must be a string (max 256 chars), 'notes' must be a string (max 8192 chars), and 'status' must be 'needsAction' or 'completed'."

def deleteInvalidParamsMsg : String :=
  "Invalid arguments for deleting a task. 'taskId' must be a non-empty string."

def completeInvalidParamsMsg : String :=
  "Invalid arguments for completing a task. 'taskId' must be a non-empty string and 'status' must be 'needsAction' or 'completed'."

def emptyTitleMsg : String := "Task title cannot be empty after sanitization."

def emptyTaskIdMsg : String := "Task ID cannot be empty after sanitization."

def invalidStatusMsg : String := "Invalid task status. Must be 'needsAction' or 'completed'."

def deleteSuccessMsg : String := "Task deleted successfully."

/-- The default on args.status in the complete handler: the argument when
it is truthy, otherwise the given literal. -/
def jsOrString (x : Option JVal) (d : String) : JVal :=
  if truthy x then x.getD JVal.jnull else JVal.jstr d

/-- The list_tasks branch: issue the list call; wrap a thrown failure as a
generic InternalError. -/
def handleListTasks (remote : RemoteResult) : ToolOutcome × Option RemoteCall :=
  match remote with
  | .ok text => (.content text, some .list)
  | .threw e => (.mcpError .internalError (getSafeErrorMessage e), some .list)

/-- The body of the create_task branch after validation has passed (so the
arguments are known to be an object): sanitize the title (throwing a plain
Error when the field is absent), sanitize truthy notes, reject an
empty-after-sanitization title, then issue the insert. -/
def handleCreateTaskObj (o : ArgsObj) (remote : RemoteResult) : ToolOutcome × Option RemoteCall :=
  match sanitizeJs o.title with
  | .error m => (.jsThrow m, none)
  | .ok sanitizedTitle =>
    match sanitizeNotes o.notes with
    | .error m => (.jsThrow m, none)
    | .ok sanitizedNotes =>
      if sanitizedTitle = "" then
        (.mcpError .invalidParams emptyTitleMsg, none)
      else
        match remote with
        | .ok text =>
          (.content text,
            some (.insert { title := sanitizedTitle, notes := sanitizedNotes, status := o.status }))
        | .threw e =>
          (.mcpError .internalError (getSafeErrorMessage e),
            some (.insert { title := sanitizedTitle, notes := sanitizedNotes, status := o.status }))

/-- The create_task branch of the call-tool handler. The nonObject arm is
unreachable because the validator rejects non-objects; it is given the
same rejection value as the guard so the function agrees with the source
on every reachable input. -/
def handleCreateTask (args : Args) (remote : RemoteResult) : ToolOutcome × Option RemoteCall :=
  if isValidCreateTaskArgs args = false then
    (.mcpError .invalidParams createInvalidParamsMsg, none)
  else
    match args with
    | .obj o => handleCreateTaskObj o remote
    | .nonObject => (.mcpError .invalidParams createInvalidParamsMsg, none)

/-- The body of the delete_task branch after validation has passed. -/
def handleDeleteTaskObj (o : ArgsObj) (remote : RemoteResult) : ToolOutcome × Option RemoteCall :=
  match sanitizeJs o.taskId with
  | .error m => (.jsThrow m, none)
  | .ok taskId =>
    if taskId = "" then
      (.mcpError .invalidParams emptyTaskIdMsg, none)
    else
      match remote with
      | .ok _ => (.content deleteSuccessMsg, some (.delete taskId))
      | .threw e => (.mcpError .internalError (getSafeErrorMessage e), some (.delete taskId))

/-- The delete_task branch of the call-tool handler. -/
def handleDeleteTask (args : Args) (remote : RemoteResult) : ToolOutcome × Option RemoteCall :=
  if isValidDeleteTaskArgs args = false then
    (.mcpError .invalidParams deleteInvalidParamsMsg, none)
  else
    match args with
    | .obj o => handleDeleteTaskObj o remote
    | .nonObject => (.mcpError .invalidParams deleteInvalidParamsMsg, none)

/-- The body of the complete_task branch after validation has passed:
sanitize the taskId, default the status to completed when falsy, reject an
empty taskId, reject an invalid status, then issue the patch. -/
def handleCompleteTaskObj (o : ArgsObj) (remote : RemoteResult) : ToolOutcome × Option RemoteCall :=
  match sanitizeJs o.taskId with
  | .error m => (.jsThrow m, none)
  | .ok taskId =>
    if taskId = "" then
      (.mcpError .invalidParams emptyTaskIdMsg, none)
    else if isValidTaskStatusJ (jsOrString o.status "completed") = false then
      (.mcpError .invalidParams invalidStatusMsg, none)
    else
      match remote with
      | .ok text =>
        (.content text, some (.patch taskId (jsOrString o.status "completed")))
      | .threw e =>
        (.mcpError .internalError (getSafeErrorMessage e),
          some (.patch taskId (jsOrString o.status "completed")))

/-- The complete_task branch of the call-tool handler. -/
def handleCompleteTask (args : Args) (remote : RemoteResult) : ToolOutcome × Option RemoteCall :=
  if isValidCompleteTaskArgs args = false then
    (.mcpError .invalidParams completeInvalidParamsMsg, none)
  else
    match args with
    | .obj o => handleCompleteTaskObj o remote
    | .nonObject => (.mcpError .invalidParams completeInvalidParamsMsg, none)

/-- The CallToolRequestSchema dispatcher: the four recognized operation
names in source order, then the method-not-found fallthrough. Alongside
the outcome it records the remote call issued, if any. -/
def handleCallTool (name : String) (args : Args) (remote : RemoteResult) :
    ToolOutcome × Option RemoteCall :=
  if name = "list_tasks" then handleListTasks remote
  else if name = "create_task" then handleCreateTask args remote
  else if name = "delete_task" then handleDeleteTask args remote
  else if name = "complete_task" then handleCompleteTask args remote
  else (.mcpError .methodNotFound ("Unknown tool: " ++ name), none)

/-- The ReadResourceRequestSchema handler: only the default list resource
is known; its read issues the list call and wraps a thrown failure as a
generic InternalError. -/
def handleReadResource (uri : String) (remote : RemoteResult) :
    ToolOutcome × Option RemoteCall :=
  if uri = "tasks://default" then
    match remote with
    | .ok text => (.content text, some .list)
    | .threw e => (.mcpError .internalError (getSafeErrorMessage e), some .list)
  else
    (.mcpError .invalidRequest ("Unknown resource: " ++ uri), none)

theorem sanitize_no_control (s : String) :
    (sanitizeString s).data.all (fun c => !(isAsciiControl c)) = true := by
  show (((jsTrimList s.data).filter (fun c => !(isAsciiControl c))).all
    (fun c => !(isAsciiControl c))) = true
  rw [List.all_eq_true]
  intro c hc
  exact (List.mem_filter.mp hc).2

theorem sanitizeJs_ok (x : Option JVal) (y : String) (h : sanitizeJs x = Except.ok y) :
    ∃ s, x = some (JVal.jstr s) ∧ y = sanitizeString s := by
  match x with
  | none => simp [sanitizeJs] at h
  | some (JVal.jstr s) =>
    refine ⟨s, rfl, ?_⟩
    have h2 := h
    simp [sanitizeJs] at h2
    exact h2.symm
  | some (JVal.jnum n) => simp [sanitizeJs] at h
  | some (JVal.jbool b) => simp [sanitizeJs] at h
  | some JVal.jnull => simp [sanitizeJs] at h
  | some JVal.jobj => simp [sanitizeJs] at h

theorem sanitizeNotes_ok_shape (x : Option JVal) (y : Option String)
    (h : sanitizeNotes x = Except.ok y) :
    y = none ∨ ∃ s, x = some (JVal.jstr s) ∧ y = some (sanitizeString s) := by
  unfold sanitizeNotes at h
  by_cases ht : truthy x = true
  · rw [if_pos ht] at h
    cases hx : sanitizeJs x with
    | error m => rw [hx] at h; simp [Except.map] at h
    | ok t =>
      rw [hx] at h
      simp [Except.map] at h
      obtain ⟨s, hs, hts⟩ := sanitizeJs_ok x t hx
      refine Or.inr ⟨s, hs, ?_⟩
      rw [← h, hts]
  · rw [if_neg ht] at h
    simp at h
    exact Or.inl h.symm

theorem createObj_insert_shape (o : ArgsObj) (remote : RemoteResult) (b : InsertBody)
    (h : (handleCreateTaskObj o remote).2 = some (RemoteCall.insert b)) :
    (∃ s, o.title = some (JVal.jstr s) ∧ b.title = sanitizeString s ∧ sanitizeString s ≠ "")
  ∧ sanitizeNotes o.notes = Except.ok b.notes
  ∧ b.status = o.status := by
  unfold handleCreateTaskObj at h
  split at h
  · simp at h
  · rename_i sanitizedTitle heqT
    split at h
    · simp at h
    · rename_i sanitizedNotes heqN
      split at h
      · simp at h
      · rename_i hne
        obtain ⟨s, hs, hts⟩ := sanitizeJs_ok o.title sanitizedTitle heqT
        cases remote with
        | ok text =>
          simp at h
          subst h
          refine ⟨⟨s, hs, hts, ?_⟩, heqN, rfl⟩
          intro hc
          exact hne (hts.trans hc)
        | threw e =>
          simp at h
          subst h
          refine ⟨⟨s, hs, hts, ?_⟩, heqN, rfl⟩
          intro hc
          exact hne (hts.trans hc)

/-- C1 (amended): every create_task invocation that reaches the remote
insert call transmits a title, and a notes value when one is transmitted,
that contain no ASCII control characters. (The transmitted strings need
not be trimmed: the sanitizer trims before stripping control characters,
so control characters at the ends of the raw input can shield interior
whitespace from the trim.) -/
theorem create_task_outbound_no_control_chars (args : Args) (remote : RemoteResult)
    (b : InsertBody) (h : (handleCreateTask args remote).2 = some (RemoteCall.insert b)) :
    b.title.data.all (fun c => !(isAsciiControl c)) = true
  ∧ ∀ n, b.notes = some n → n.data.all (fun c => !(isAsciiControl c)) = true := by
  unfold handleCreateTask at h
  split at h
  · simp at h
  · cases args with
    | nonObject => simp at h
    | obj o =>
      have h2 : (handleCreateTaskObj o remote).2 = some (RemoteCall.insert b) := h
      obtain ⟨⟨s, hs, hts, hne⟩, hnotes, hstat⟩ := createObj_insert_shape o remote b h2
      constructor
      · rw [hts]
        exact sanitize_no_control s
      · intro n hn
        rcases sanitizeNotes_ok_shape o.notes b.notes hnotes with h0 | ⟨s2, hs2, hv2⟩
        · rw [h0] at hn
          cases hn
        · have h3 : some (sanitizeString s2) = some n := hv2.symm.trans hn
          have h4 : sanitizeString s2 = n := Option.some.inj h3
          rw [← h4]
          exact sanitize_no_control s2

theorem create_task_outbound_no_control_chars_witness :
    ("ab" : String).data.all (fun c => !(isAsciiControl c)) = true
  ∧ ∀ n, (none : Option String) = some n →
      n.data.all (fun c => !(isAsciiControl c)) = true :=
  create_task_outbound_no_control_chars
    (Args.obj { title := some (JVal.jstr ("ab")), notes := none, taskId := none, status := none })
    (RemoteResult.ok ("ok"))
    { title := "ab", notes := none, status := none }
    (by decide)

/-- C1 counterexample: the raw title consisting of a control character, a
space, the letter a, a space and a control character reaches the remote
insert call as the string space-a-space, which has leading and trailing
whitespace, so the transmitted title is not trimmed. -/
theorem create_task_transmits_untrimmed_title :
    (handleCreateTask
        (Args.obj { title := some (JVal.jstr ("\u0001 a \u0001")), notes := none,
                    taskId := none, status := none })
        (RemoteResult.ok ("ok"))).2
      = some (RemoteCall.insert { title := " a ", notes := none, status := none })
  ∧ (" a " : String).data = [' ', 'a', ' ']
  ∧ isJsWhitespace ' ' = true := by decide

/-- C2: calling create_task with an argument map that omits title passes
isValidCreateTaskArgs (which only checks title when present), after which
sanitizeString throws a plain untyped Error rather than a typed
InvalidParams McpError; no remote call is made. -/
theorem create_task_missing_title_untyped_throw :
    handleCreateTask
        (Args.obj { title := none, notes := none, taskId := none, status := none })
        (RemoteResult.ok ("ok"))
      = (ToolOutcome.jsThrow msgInputMustBeString, none) := by decide

theorem sanitizeNotes_ok_of_valid (x : Option JVal) (m : Nat)
    (h : validOptStringField m x = true) : ∃ y, sanitizeNotes x = Except.ok y := by
  match x with
  | none => exact ⟨none, by simp [sanitizeNotes, truthy]⟩
  | some (JVal.jstr s) =>
    by_cases hs : truthy (some (JVal.jstr s)) = true
    · exact ⟨some (sanitizeString s), by simp [sanitizeNotes, hs, sanitizeJs, Except.map]⟩
    · exact ⟨none, by simp [sanitizeNotes, hs]⟩
  | some (JVal.jnum n) => simp [validOptStringField] at h
  | some (JVal.jbool b) => simp [validOptStringField] at h
  | some JVal.jnull => simp [validOptStringField] at h
  | some JVal.jobj => simp [validOptStringField] at h

/-- C7 (amended): a create_task invocation that passes validation and
whose title consists only of whitespace and control characters is rejected
as empty-after-sanitization with InvalidParams, before any remote call,
whenever the trim-then-strip sanitizer actually yields the empty string.
(Not every whitespace-and-control-only title sanitizes to empty: control
characters at both ends shield interior whitespace from the trim.) -/
theorem create_task_title_sanitizes_empty_rejected (o : ArgsObj) (remote : RemoteResult)
    (s : String) (ht : o.title = some (JVal.jstr s))
    (_hall : s.data.all (fun c => isJsWhitespace c || isAsciiControl c) = true)
    (hempty : sanitizeString s = "")
    (hv : isValidCreateTaskArgs (Args.obj o) = true) :
    handleCreateTask (Args.obj o) remote
      = (ToolOutcome.mcpError ErrCode.invalidParams emptyTitleMsg, none) := by
  have hv2 := hv
  simp only [isValidCreateTaskArgs] at hv2
  rw [Bool.and_eq_true, Bool.and_eq_true, Bool.and_eq_true] at hv2
  have hvn : validOptStringField MAX_NOTES_LENGTH o.notes = true := hv2.1.1.2
  obtain ⟨y, hy⟩ := sanitizeNotes_ok_of_valid o.notes MAX_NOTES_LENGTH hvn
  simp [handleCreateTask, hv, handleCreateTaskObj, sanitizeJs, ht, hempty, hy]

theorem create_task_title_sanitizes_empty_rejected_witness :
    handleCreateTask
        (Args.obj { title := some (JVal.jstr ("   ")), notes := none,
                    taskId := none, status := none })
        (RemoteResult.ok ("ok"))
      = (ToolOutcome.mcpError ErrCode.invalidParams emptyTitleMsg, none) :=
  create_task_title_sanitizes_empty_rejected
    { title := some (JVal.jstr ("   ")), notes := none, taskId := none, status := none }
    (RemoteResult.ok ("ok")) "   " rfl (by decide) (by decide) (by decide)

/-- C7 counterexample: the title consisting of a control character, a
space and a control character is made only of whitespace and control
characters, yet it sanitizes to a single space, is not rejected, and the
remote insert is called with it. -/
theorem ws_control_only_title_not_rejected :
    handleCreateTask
        (Args.obj { title := some (JVal.jstr ("\u0001 \u0001")), notes := none,
                    taskId := none, status := none })
        (RemoteResult.ok ("ok"))
      = (ToolOutcome.content ("ok"),
         some (RemoteCall.insert { title := " ", notes := none, status := none }))
  ∧ ("\u0001 \u0001" : String).data.all (fun c => isJsWhitespace c || isAsciiControl c) = true := by
  decide

theorem length_le_jsLength (s : String) : s.length ≤ jsLength s := by
  show s.data.length ≤ jsLength s
  unfold jsLength
  induction s.data with
  | nil => simp
  | cons c l ih =>
    simp only [List.map_cons, List.sum_cons, List.length_cons]
    have hc : 1 ≤ utf16CharLen c := by
      unfold utf16CharLen
      split <;> omega
    omega

/-- C6: a create_task invocation whose title is a string of more than 256
characters is rejected by the validator with InvalidParams and the remote
insert call is never made. (JS measures length in UTF-16 code units, which
is at least the number of characters, so more than 256 characters always
exceeds the 256-unit limit.) -/
theorem create_task_long_title_rejected (o : ArgsObj) (remote : RemoteResult) (s : String)
    (ht : o.title = some (JVal.jstr s)) (hl : 256 < s.length) :
    handleCreateTask (Args.obj o) remote
      = (ToolOutcome.mcpError ErrCode.invalidParams createInvalidParamsMsg, none) := by
  have hj : 256 < jsLength s := lt_of_lt_of_le hl (length_le_jsLength s)
  have hv : validOptStringField MAX_TITLE_LENGTH o.title = false := by
    rw [ht]
    simp [validOptStringField, MAX_TITLE_LENGTH]
    omega
  simp [handleCreateTask, isValidCreateTaskArgs, hv]

theorem create_task_long_title_rejected_witness :
    handleCreateTask
        (Args.obj { title := some (JVal.jstr (String.mk (List.replicate 257 ('a')))),
                    notes := none, taskId := none, status := none })
        (RemoteResult.ok ("ok"))
      = (ToolOutcome.mcpError ErrCode.invalidParams createInvalidParamsMsg, none) :=
  create_task_long_title_rejected
    { title := some (JVal.jstr (String.mk (List.replicate 257 ('a')))),
      notes := none, taskId := none, status := none }
    (RemoteResult.ok ("ok")) (String.mk (List.replicate 257 ('a'))) rfl (by decide)

/-- C8: a delete_task invocation whose taskId is the empty string, or
whose taskId sanitizes to the empty string, is rejected with InvalidParams
and no remote delete call is made. -/
theorem delete_task_empty_taskid_rejected (o : ArgsObj) (remote : RemoteResult) (s : String)
    (ht : o.taskId = some (JVal.jstr s)) (h : s = "" ∨ sanitizeString s = "") :
    ∃ m, handleDeleteTask (Args.obj o) remote
      = (ToolOutcome.mcpError ErrCode.invalidParams m, none) := by
  cases hval : isValidDeleteTaskArgs (Args.obj o) with
  | false => exact ⟨deleteInvalidParamsMsg, by simp [handleDeleteTask, hval]⟩
  | true =>
    have hsan : sanitizeString s = "" := by
      rcases h with h | h
      · rw [h]
        decide
      · exact h
    exact ⟨emptyTaskIdMsg, by simp [handleDeleteTask, hval, handleDeleteTaskObj, sanitizeJs, ht, hsan]⟩

theorem delete_task_empty_taskid_rejected_witness :
    ∃ m, handleDeleteTask
        (Args.obj { title := none, notes := none, taskId := some (JVal.jstr ("")),
                    status := none })
        (RemoteResult.ok ("ok"))
      = (ToolOutcome.mcpError ErrCode.invalidParams m, none) :=
  delete_task_empty_taskid_rejected
    { title := none, notes := none, taskId := some (JVal.jstr ("")), status := none }
    (RemoteResult.ok ("ok")) "" rfl (Or.inl rfl)

theorem create_insert_shape (args : Args) (remote : RemoteResult) (b : InsertBody)
    (h : (handleCreateTask args remote).2 = some (RemoteCall.insert b)) :
    ∃ o, args = Args.obj o
      ∧ (∃ s, o.title = some (JVal.jstr s) ∧ b.title = sanitizeString s ∧ sanitizeString s ≠ "")
      ∧ sanitizeNotes o.notes = Except.ok b.notes
      ∧ b.status = o.status := by
  unfold handleCreateTask at h
  split at h
  · simp at h
  · cases args with
    | nonObject => simp at h
    | obj o =>
      have h2 : (handleCreateTaskObj o remote).2 = some (RemoteCall.insert b) := h
      exact ⟨o, rfl, createObj_insert_shape o remote b h2⟩

/-- C10 (amended): notes is never rejected for being empty after
sanitization. When the notes argument is a nonempty string and the insert
call is made, the transmitted notes value is exactly the sanitized string,
which is the empty string when the trim-then-strip sanitizer yields empty
but can be residual whitespace when control characters shield whitespace
from the trim; when notes is absent or is the empty string, the insert
call carries no notes value at all. -/
theorem create_task_notes_passthrough (o o2 : ArgsObj) (remote remote2 : RemoteResult)
    (s : String) (b b2 : InsertBody)
    (hn : o.notes = some (JVal.jstr s)) (hne : s ≠ "")
    (hcall : (handleCreateTask (Args.obj o) remote).2 = some (RemoteCall.insert b))
    (hn2 : o2.notes = none ∨ o2.notes = some (JVal.jstr ""))
    (hcall2 : (handleCreateTask (Args.obj o2) remote2).2 = some (RemoteCall.insert b2)) :
    b.notes = some (sanitizeString s) ∧ b2.notes = none := by
  constructor
  · obtain ⟨o', heq, _, hnotes, _⟩ := create_insert_shape _ _ _ hcall
    injection heq with ho
    subst ho
    rw [hn] at hnotes
    have htr : truthy (some (JVal.jstr s)) = true := by simp [truthy, hne]
    unfold sanitizeNotes at hnotes
    rw [if_pos htr] at hnotes
    simp [sanitizeJs, Except.map] at hnotes
    exact hnotes.symm
  · obtain ⟨o2', heq2, _, hnotes2, _⟩ := create_insert_shape _ _ _ hcall2
    injection heq2 with ho2
    subst ho2
    rcases hn2 with h2 | h2 <;> rw [h2] at hnotes2 <;> simp [sanitizeNotes, truthy] at hnotes2 <;>
      exact hnotes2.symm

theorem create_task_notes_passthrough_witness :
    ({ title := "a", notes := some ("x"), status := none } : InsertBody).notes
        = some (sanitizeString (" x "))
  ∧ ({ title := "a", notes := none, status := none } : InsertBody).notes = none :=
  create_task_notes_passthrough
    { title := some (JVal.jstr ("a")), notes := some (JVal.jstr (" x ")),
      taskId := none, status := none }
    { title := some (JVal.jstr ("a")), notes := none, taskId := none, status := none }
    (RemoteResult.ok ("ok")) (RemoteResult.ok ("ok")) " x "
    { title := "a", notes := some ("x"), status := none }
    { title := "a", notes := none, status := none }
    rfl (by decide) (by decide) (Or.inl rfl) (by decide)

/-- C10 counterexample: a notes string consisting only of whitespace and
control characters (control, space, control) is transmitted as a single
space, not as the empty string. -/
theorem ws_control_notes_not_transmitted_empty :
    (handleCreateTask
        (Args.obj { title := some (JVal.jstr ("a")), notes := some (JVal.jstr ("\u0001 \u0001")),
                    taskId := none, status := none })
        (RemoteResult.ok ("ok"))).2
      = some (RemoteCall.insert { title := "a", notes := some (" "), status := none })
  ∧ ("\u0001 \u0001" : String).data.all (fun c => isJsWhitespace c || isAsciiControl c) = true
  ∧ (" " : String) ≠ ("" : String) := by decide

theorem completeObj_patch_shape (o : ArgsObj) (remote : RemoteResult) (tid : String) (st : JVal)
    (h : (handleCompleteTaskObj o remote).2 = some (RemoteCall.patch tid st)) :
    st = jsOrString o.status "completed" ∧ isValidTaskStatusJ st = true := by
  unfold handleCompleteTaskObj at h
  split at h
  · simp at h
  · split at h
    · simp at h
    · split at h
      · simp at h
      · rename_i hguard
        have hst : isValidTaskStatusJ (jsOrString o.status "completed") = true := by
          cases hb : isValidTaskStatusJ (jsOrString o.status "completed") with
          | false => exact absurd hb hguard
          | true => rfl
        cases remote with
        | ok text =>
          simp at h
          obtain ⟨h1, h2⟩ := h
          subst h2
          exact ⟨rfl, hst⟩
        | threw e =>
          simp at h
          obtain ⟨h1, h2⟩ := h
          subst h2
          exact ⟨rfl, hst⟩

theorem complete_patch_shape (args : Args) (remote : RemoteResult) (tid : String) (st : JVal)
    (h : (handleCompleteTask args remote).2 = some (RemoteCall.patch tid st)) :
    ∃ o, args = Args.obj o ∧ st = jsOrString o.status "completed"
      ∧ isValidTaskStatusJ st = true := by
  unfold handleCompleteTask at h
  split at h
  · simp at h
  · cases args with
    | nonObject => simp at h
    | obj o =>
      have h2 : (handleCompleteTaskObj o remote).2 = some (RemoteCall.patch tid st) := h
      exact ⟨o, rfl, completeObj_patch_shape o remote tid st h2⟩

/-- C4: a create_task or complete_task invocation whose status field is
present and outside the enumerated set (this covers the empty string, any
other string, and any non-string runtime value) is rejected with
InvalidParams before any remote call; and when status is absent, the
status a complete_task patch call transmits is the default, the literal
completed, which lies inside the set. -/
theorem invalid_status_rejected (o o2 : ArgsObj) (remote : RemoteResult) (j : JVal)
    (hs : o.status = some j) (hj : isValidTaskStatusJ j = false) (h2 : o2.status = none) :
    handleCreateTask (Args.obj o) remote
        = (ToolOutcome.mcpError ErrCode.invalidParams createInvalidParamsMsg, none)
  ∧ handleCompleteTask (Args.obj o) remote
        = (ToolOutcome.mcpError ErrCode.invalidParams completeInvalidParamsMsg, none)
  ∧ ∀ tid st, (handleCompleteTask (Args.obj o2) remote).2 = some (RemoteCall.patch tid st) →
      st = JVal.jstr ("completed") ∧ isValidTaskStatusJ st = true := by
  have hvs : validStatusField o.status = false := by
    rw [hs]
    simpa [validStatusField] using hj
  refine ⟨?_, ?_, ?_⟩
  · simp [handleCreateTask, isValidCreateTaskArgs, hvs]
  · simp [handleCompleteTask, isValidCompleteTaskArgs, hvs]
  · intro tid st hp
    obtain ⟨o', heq, hst, hval⟩ := complete_patch_shape _ _ _ _ hp
    injection heq with ho
    subst ho
    rw [h2] at hst
    have hc : st = JVal.jstr ("completed") := by
      rw [hst]
      decide
    exact ⟨hc, hval⟩

theorem invalid_status_rejected_witness :
    handleCreateTask
        (Args.obj { title := some (JVal.jstr ("t")), notes := none, taskId := none,
                    status := some (JVal.jstr ("bogus")) })
        (RemoteResult.ok ("ok"))
      = (ToolOutcome.mcpError ErrCode.invalidParams createInvalidParamsMsg, none) :=
  (invalid_status_rejected
    { title := some (JVal.jstr ("t")), notes := none, taskId := none,
      status := some (JVal.jstr ("bogus")) }
    { title := none, notes := none, taskId := some (JVal.jstr ("x")), status := none }
    (RemoteResult.ok ("ok")) (JVal.jstr ("bogus")) rfl (by decide) rfl).1

/-- C5: for every argument map, completing a task with no status argument
produces exactly the same outcome, including the same remote patch call
and the same response or error, as completing it with status set to the
literal completed. -/
theorem complete_task_default_status (o : ArgsObj) (remote : RemoteResult)
    (h : o.status = none) :
    handleCompleteTask (Args.obj o) remote
      = handleCompleteTask
          (Args.obj { o with status := some (JVal.jstr ("completed")) }) remote := by
  obtain ⟨t, n, i, st⟩ := o
  dsimp only at h ⊢
  subst h
  simp [handleCompleteTask, isValidCompleteTaskArgs, handleCompleteTaskObj, jsOrString,
        truthy, validStatusField, isValidTaskStatusJ, isValidTaskStatus, VALID_TASK_STATUSES]

theorem complete_task_default_status_witness :
    handleCompleteTask
        (Args.obj { title := none, notes := none, taskId := some (JVal.jstr ("x")),
                    status := none })
        (RemoteResult.ok ("ok"))
      = handleCompleteTask
          (Args.obj { title := none, notes := none, taskId := some (JVal.jstr ("x")),
                      status := some (JVal.jstr ("completed")) })
          (RemoteResult.ok ("ok")) :=
  complete_task_default_status
    { title := none, notes := none, taskId := some (JVal.jstr ("x")), status := none }
    (RemoteResult.ok ("ok")) rfl

theorem createObj_threw (o : ArgsObj) (e : ThrownValue) :
    (handleCreateTaskObj o (RemoteResult.threw e)).2 = none
  ∨ (handleCreateTaskObj o (RemoteResult.threw e)).1
      = ToolOutcome.mcpError ErrCode.internalError (getSafeErrorMessage e) := by
  unfold handleCreateTaskObj
  split
  · exact Or.inl rfl
  · split
    · exact Or.inl rfl
    · split
      · exact Or.inl rfl
      · exact Or.inr rfl

theorem create_threw (args : Args) (e : ThrownValue) :
    (handleCreateTask args (RemoteResult.threw e)).2 = none
  ∨ (handleCreateTask args (RemoteResult.threw e)).1
      = ToolOutcome.mcpError ErrCode.internalError (getSafeErrorMessage e) := by
  unfold handleCreateTask
  split
  · exact Or.inl rfl
  · cases args with
    | obj o => exact createObj_threw o e
    | nonObject => exact Or.inl rfl

theorem deleteObj_threw (o : ArgsObj) (e : ThrownValue) :
    (handleDeleteTaskObj o (RemoteResult.threw e)).2 = none
  ∨ (handleDeleteTaskObj o (RemoteResult.threw e)).1
      = ToolOutcome.mcpError ErrCode.internalError (getSafeErrorMessage e) := by
  unfold handleDeleteTaskObj
  split
  · exact Or.inl rfl
  · split
    · exact Or.inl rfl
    · exact Or.inr rfl

theorem delete_threw (args : Args) (e : ThrownValue) :
    (handleDeleteTask args (RemoteResult.threw e)).2 = none
  ∨ (handleDeleteTask args (RemoteResult.threw e)).1
      = ToolOutcome.mcpError ErrCode.internalError (getSafeErrorMessage e) := by
  unfold handleDeleteTask
  split
  · exact Or.inl rfl
  · cases args with
    | obj o => exact deleteObj_threw o e
    | nonObject => exact Or.inl rfl

theorem completeObj_threw (o : ArgsObj) (e : ThrownValue) :
    (handleCompleteTaskObj o (RemoteResult.threw e)).2 = none
  ∨ (handleCompleteTaskObj o (RemoteResult.threw e)).1
      = ToolOutcome.mcpError ErrCode.internalError (getSafeErrorMessage e) := by
  unfold handleCompleteTaskObj
  split
  · exact Or.inl rfl
  · split
    · exact Or.inl rfl
    · split
      · exact Or.inl rfl
      · exact Or.inr rfl

theorem complete_threw (args : Args) (e : ThrownValue) :
    (handleCompleteTask args (RemoteResult.threw e)).2 = none
  ∨ (handleCompleteTask args (RemoteResult.threw e)).1
      = ToolOutcome.mcpError ErrCode.internalError (getSafeErrorMessage e) := by
  unfold handleCompleteTask
  split
  · exact Or.inl rfl
  · cases args with
    | obj o => exact completeObj_threw o e
    | nonObject => exact Or.inl rfl

theorem callTool_threw (name : String) (args : Args) (e : ThrownValue) :
    (handleCallTool name args (RemoteResult.threw e)).2 = none
  ∨ (handleCallTool name args (RemoteResult.threw e)).1
      = ToolOutcome.mcpError ErrCode.internalError (getSafeErrorMessage e) := by
  unfold handleCallTool
  split
  · exact Or.inr rfl
  · split
    · exact create_threw args e
    · split
      · exact delete_threw args e
      · split
        · exact complete_threw args e
        · exact Or.inl rfl

theorem readResource_threw (uri : String) (e : ThrownValue) :
    (handleReadResource uri (RemoteResult.threw e)).2 = none
  ∨ (handleReadResource uri (RemoteResult.threw e)).1
      = ToolOutcome.mcpError ErrCode.internalError (getSafeErrorMessage e) := by
  unfold handleReadResource
  split
  · exact Or.inr rfl
  · exact Or.inl rfl

theorem createObj_threw_congr (o : ArgsObj) (e e2 : ThrownValue)
    (h : getSafeErrorMessage e = getSafeErrorMessage e2) :
    handleCreateTaskObj o (RemoteResult.threw e)
      = handleCreateTaskObj o (RemoteResult.threw e2) := by
  dsimp only [handleCreateTaskObj]
  rw [h]

theorem create_threw_congr (args : Args) (e e2 : ThrownValue)
    (h : getSafeErrorMessage e = getSafeErrorMessage e2) :
    handleCreateTask args (RemoteResult.threw e)
      = handleCreateTask args (RemoteResult.threw e2) := by
  unfold handleCreateTask
  split
  · rfl
  · cases args with
    | obj o => exact createObj_threw_congr o e e2 h
    | nonObject => rfl

theorem deleteObj_threw_congr (o : ArgsObj) (e e2 : ThrownValue)
    (h : getSafeErrorMessage e = getSafeErrorMessage e2) :
    handleDeleteTaskObj o (RemoteResult.threw e)
      = handleDeleteTaskObj o (RemoteResult.threw e2) := by
  dsimp only [handleDeleteTaskObj]
  rw [h]

theorem delete_threw_congr (args : Args) (e e2 : ThrownValue)
    (h : getSafeErrorMessage e = getSafeErrorMessage e2) :
    handleDeleteTask args (RemoteResult.threw e)
      = handleDeleteTask args (RemoteResult.threw e2) := by
  unfold handleDeleteTask
  split
  · rfl
  · cases args with
    | obj o => exact deleteObj_threw_congr o e e2 h
    | nonObject => rfl

theorem completeObj_threw_congr (o : ArgsObj) (e e2 : ThrownValue)
    (h : getSafeErrorMessage e = getSafeErrorMessage e2) :
    handleCompleteTaskObj o (RemoteResult.threw e)
      = handleCompleteTaskObj o (RemoteResult.threw e2) := by
  dsimp only [handleCompleteTaskObj]
  rw [h]

theorem complete_threw_congr (args : Args) (e e2 : ThrownValue)
    (h : getSafeErrorMessage e = getSafeErrorMessage e2) :
    handleCompleteTask args (RemoteResult.threw e)
      = handleCompleteTask args (RemoteResult.threw e2) := by
  unfold handleCompleteTask
  split
  · rfl
  · cases args with
    | obj o => exact completeObj_threw_congr o e e2 h
    | nonObject => rfl

theorem callTool_threw_congr (name : String) (args : Args) (e e2 : ThrownValue)
    (h : getSafeErrorMessage e = getSafeErrorMessage e2) :
    handleCallTool name args (RemoteResult.threw e)
      = handleCallTool name args (RemoteResult.threw e2) := by
  unfold handleCallTool
  split
  · dsimp only [handleListTasks]
    rw [h]
  · split
    · exact create_threw_congr args e e2 h
    · split
      · exact delete_threw_congr args e e2 h
      · split
        · exact complete_threw_congr args e e2 h
        · rfl

theorem readResource_threw_congr (uri : String) (e e2 : ThrownValue)
    (h : getSafeErrorMessage e = getSafeErrorMessage e2) :
    handleReadResource uri (RemoteResult.threw e)
      = handleReadResource uri (RemoteResult.threw e2) := by
  unfold handleReadResource
  split
  · dsimp only
    rw [h]
  · rfl

theorem getSafeErrorMessage_eq_ite (e : ThrownValue) :
    getSafeErrorMessage e
      = if isErrorInstance e = true then genericErrorMsg else unknownErrorMsg := by
  cases e <;> rfl

/-- C3: whenever a remote call made by any of the four tool operations, or
by the resource read, throws, the surfaced outcome is an InternalError
whose message is one of two fixed constants chosen only by whether the
thrown value is an Error instance; the message does not depend on the
underlying error text, so for any two Error texts the entire result is
identical and the text is never echoed. -/
theorem remote_failure_generic_internal_error (name uri : String) (args : Args)
    (e : ThrownValue) (t t2 : String) :
    ((handleCallTool name args (RemoteResult.threw e)).2.isSome = true →
        (handleCallTool name args (RemoteResult.threw e)).1
          = ToolOutcome.mcpError ErrCode.internalError
              (if isErrorInstance e = true then genericErrorMsg else unknownErrorMsg))
  ∧ handleCallTool name args (RemoteResult.threw (ThrownValue.errorInstance t))
      = handleCallTool name args (RemoteResult.threw (ThrownValue.errorInstance t2))
  ∧ ((handleReadResource uri (RemoteResult.threw e)).2.isSome = true →
        (handleReadResource uri (RemoteResult.threw e)).1
          = ToolOutcome.mcpError ErrCode.internalError
              (if isErrorInstance e = true then genericErrorMsg else unknownErrorMsg))
  ∧ handleReadResource uri (RemoteResult.threw (ThrownValue.errorInstance t))
      = handleReadResource uri (RemoteResult.threw (ThrownValue.errorInstance t2)) := by
  refine ⟨?_, ?_, ?_, ?_⟩
  · intro hs
    rcases callTool_threw name args e with h | h
    · rw [h] at hs
      simp at hs
    · rw [h, getSafeErrorMessage_eq_ite]
  · exact callTool_threw_congr name args _ _ rfl
  · intro hs
    rcases readResource_threw uri e with h | h
    · rw [h] at hs
      simp at hs
    · rw [h, getSafeErrorMessage_eq_ite]
  · exact readResource_threw_congr uri _ _ rfl

theorem remote_failure_generic_internal_error_witness :
    (handleCallTool "list_tasks" Args.nonObject
        (RemoteResult.threw (ThrownValue.errorInstance ("boom")))).1
      = ToolOutcome.mcpError ErrCode.internalError
          (if isErrorInstance (ThrownValue.errorInstance ("boom")) = true
            then genericErrorMsg else unknownErrorMsg) :=
  (remote_failure_generic_internal_error "list_tasks" "tasks://default" Args.nonObject
    (ThrownValue.errorInstance ("boom")) "a" "b").1 (by decide)

/-- C9: a tool invocation whose operation name is none of the four
recognized names yields the MethodNotFound error and no remote call is
made, for every argument map and every possible remote outcome. -/
theorem unknown_tool_method_not_found (name : String) (args : Args) (remote : RemoteResult)
    (h1 : name ≠ "list_tasks") (h2 : name ≠ "create_task")
    (h3 : name ≠ "delete_task") (h4 : name ≠ "complete_task") :
    handleCallTool name args remote
      = (ToolOutcome.mcpError ErrCode.methodNotFound ("Unknown tool: " ++ name), none) := by
  simp [handleCallTool, h1, h2, h3, h4]

theorem unknown_tool_method_not_found_witness :
    handleCallTool "frobnicate" Args.nonObject (RemoteResult.ok ("ok"))
      = (ToolOutcome.mcpError ErrCode.methodNotFound ("Unknown tool: " ++ "frobnicate"), none) :=
  unknown_tool_method_not_found "frobnicate" Args.nonObject (RemoteResult.ok ("ok"))
    (by decide) (by decide) (by decide) (by decide)
